import Mathlib

/-!
Verification of the dzulfikar-ali portfolio/blog site against its design
specification.

The development shallowly embeds the pieces of the repository that the
specified properties are about:

* the markdown post loader (directory of frontmatter files, one Post record
  per file, sorted by date descending).  The loader function itself is not
  among the shipped sources (only the post files are), so it is modelled
  from the specification, section 4.1;
* the Breadcrumb presentational component (conditional rendering driven by
  the title, paths, blurred and detailPost props), transcribed from the
  component source;
* the Comments component and the script-injection hook it calls on mount.

Markup is modelled as a tree of DOM nodes; JSX child expressions follow the
JavaScript/React evaluation rules (truthiness, short-circuit of the logical
AND operator, and the React rule that booleans, null and undefined render
nothing while numbers and strings render as text).

String processing is written over the underlying character lists by
structural recursion, so that every definition evaluates on concrete
inputs.
-/

/-! ### Character-list utilities -/

/-- Split a character list at every occurrence of the separator; the
separator is dropped and the groups are kept in order (the analogue of
String.splitOn for one-character separators). -/
def splitListOn (sep : Char) : List Char → List (List Char)
  | [] => [[]]
  | c :: cs =>
    match splitListOn sep cs with
    | [] => [[]]
    | g :: gs => if c = sep then [] :: g :: gs else (c :: g) :: gs

/-- Join character-list groups with the separator between them (the inverse
of splitListOn; the analogue of String.intercalate). -/
def joinWith (sep : Char) : List (List Char) → List Char
  | [] => []
  | [g] => g
  | g :: g2 :: gs => g ++ sep :: joinWith sep (g2 :: gs)

/-- Split a character list at the first occurrence of the separator; none
when the separator does not occur. -/
def splitFirst (sep : Char) : List Char → Option (List Char × List Char)
  | [] => none
  | c :: cs =>
    if c = sep then some ([], cs)
    else (splitFirst sep cs).map (fun p => (c :: p.1, p.2))

/-- Drop leading and trailing whitespace (the analogue of String.trim). -/
def trimChars (l : List Char) : List Char :=
  ((l.dropWhile Char.isWhitespace).reverse.dropWhile Char.isWhitespace).reverse

/-! ## Post loader

Modelled from the spec, section 4.1: the loader code is not among the
shipped sources; only the markdown post files are.  For each file, split
the leading metadata block from the body; parse metadata keys (title, date,
category list, cover, thumb) into typed fields; leave the remainder as
renderable body content; sort the resulting records by date, descending;
files lacking required metadata keys are excluded, never a fatal error.
-/

/-- One blog entry as produced by the post loader. -/
structure Post where
  title : String
  date : String
  category : List String
  cover : String
  thumb : String
  body : String
  deriving Repr, DecidableEq

/-- One source file of the post directory: slug name plus raw content. -/
structure PostFile where
  name : String
  content : String
  deriving Repr, DecidableEq

/-- Numeric sort key of an ISO-8601 date string such as
"2023-05-03T20:31:59.889Z": the digits in order, read as one number.  For
the fixed-width ISO format used by the post files this order coincides with
chronological order. -/
def dateKey (s : String) : Nat :=
  s.data.foldl (fun n c => if c.isDigit then n * 10 + (c.toNat - 48) else n) 0

/-- Split the content of a file into lines. -/
def toLines (content : String) : List String :=
  (splitListOn '\n' content.data).map String.mk

/-- Join lines back into one string with newlines between them. -/
def joinLines (ls : List String) : String :=
  String.mk (joinWith '\n' (ls.map String.data))

/-- Split one metadata line "key: value" at the first colon; lines without
a colon carry no key. -/
def splitKV (line : String) : Option (String × String) :=
  (splitFirst ':' line.data).map
    (fun p => (String.mk (trimChars p.1), String.mk (trimChars p.2)))

/-- Strip one pair of surrounding double quotes, when present. -/
def unquote (s : String) : String :=
  match s.data with
  | '"' :: rest =>
    if rest.getLast? = some '"' then String.mk rest.dropLast else s
  | _ => s

/-- Parse a frontmatter category value such as ["Swift", "Design Pattern"]
into the list of labels. -/
def parseCategory (s : String) : List String :=
  match s.data with
  | '[' :: rest =>
    if rest.getLast? = some ']' then
      (splitListOn ',' rest.dropLast).map (fun g => unquote (String.mk (trimChars g)))
    else [unquote s]
  | _ => [unquote s]

/-- Association lookup of a metadata key. -/
def lookupKV (key : String) : List (String × String) → Option String
  | [] => none
  | (k, v) :: rest => if k = key then some v else lookupKV key rest

/-- Split the leading metadata block from the body: the content must open
with a "---" line; the metadata lines run up to the closing "---" line and
the remainder of the file is the body. -/
def splitFrontmatter (content : String) : Option (List String × String) :=
  match toLines content with
  | [] => none
  | first :: rest =>
    if first = "---" then
      match rest.dropWhile (fun l => decide (l ≠ "---")) with
      | [] => none
      | _ :: bodyLines =>
        some (rest.takeWhile (fun l => decide (l ≠ "---")), joinLines bodyLines)
    else none

/-- The value of the title key of the metadata block, when both exist. -/
def postTitleValue (content : String) : Option String :=
  match splitFrontmatter content with
  | none => none
  | some (metaLines, _) => lookupKV "title" (metaLines.filterMap splitKV)

/-- Parse one post file: split the metadata block from the body and read
the five metadata keys into typed fields.  A file lacking the metadata
block or any required key yields none and is thereby excluded. -/
def parsePost (content : String) : Option Post :=
  match splitFrontmatter content with
  | none => none
  | some (metaLines, body) =>
    let kvs := metaLines.filterMap splitKV
    match lookupKV "title" kvs, lookupKV "date" kvs, lookupKV "category" kvs,
        lookupKV "cover" kvs, lookupKV "thumb" kvs with
    | some t, some d, some c, some cov, some th =>
      some ⟨unquote t, unquote d, parseCategory c, unquote cov, unquote th, body⟩
    | _, _, _, _, _ => none

/-- Date-descending order on post records: the left record is at least as
recent as the right one. -/
def postLE (a b : Post) : Prop := dateKey b.date ≤ dateKey a.date

instance : DecidableRel postLE := fun a b =>
  inferInstanceAs (Decidable (dateKey b.date ≤ dateKey a.date))

instance : IsTotal Post postLE :=
  ⟨fun a b => Nat.le_total (dateKey b.date) (dateKey a.date)⟩

instance : IsTrans Post postLE :=
  ⟨fun _ _ _ h1 h2 => Nat.le_trans h2 h1⟩

/-- The post loader: parse every file of the directory, drop the files that
fail to parse, and sort the records by date descending. -/
def loadPosts (files : List PostFile) : List Post :=
  List.insertionSort postLE (files.filterMap (fun f => parsePost f.content))

/-! ### Concrete post files

The frontmatter blocks are transcribed verbatim from the two post files of
the repository; the bodies are abbreviated to their first sentence, which
is irrelevant to ordering. -/

/-- The post file create-custom-shell-to-increase-productivity.md: its
frontmatter, dated 2023-02-24T20:31:59.889Z. -/
def createCustomShellFile : PostFile :=
  ⟨"create-custom-shell-to-increase-productivity",
   "---\n" ++
   "title: \"Create Custom Shell Aliases To Increase Productivity\"\n" ++
   "date: \"2023-02-24T20:31:59.889Z\"\n" ++
   "category: [\"Productivity\"]\n" ++
   "cover: \"/images/blog/create-custom-shell.jpg\"\n" ++
   "thumb: \"/images/blog/sm/create-custom-shell.jpg\"\n" ++
   "---\n" ++
   "\n" ++
   "As developers, we frequently spend a lot of time at the command-line performing various tasks."⟩

/-- The post file property-wrappers-in-swift.md: its frontmatter, dated
2023-05-03T20:31:59.889Z. -/
def propertyWrappersFile : PostFile :=
  ⟨"property-wrappers-in-swift",
   "---\n" ++
   "title: \"Property Wrappers in Swift\"\n" ++
   "date: \"2023-05-03T20:31:59.889Z\"\n" ++
   "category: [\"Swift\"]\n" ++
   "cover: \"/images/blog/property-wrappers.jpg\"\n" ++
   "thumb: \"/images/blog/sm/property-wrappers.jpg\"\n" ++
   "---\n" ++
   "\n" ++
   "Back then, prior to Swift 5, every time we wanted to try accessing an object, we needed to create boilerplate code."⟩

/-- The record the loader produces for the create-custom-shell post. -/
def createCustomShellPost : Post :=
  ⟨"Create Custom Shell Aliases To Increase Productivity",
   "2023-02-24T20:31:59.889Z", ["Productivity"],
   "/images/blog/create-custom-shell.jpg",
   "/images/blog/sm/create-custom-shell.jpg",
   "\nAs developers, we frequently spend a lot of time at the command-line performing various tasks."⟩

/-- The record the loader produces for the property-wrappers post. -/
def propertyWrappersPost : Post :=
  ⟨"Property Wrappers in Swift",
   "2023-05-03T20:31:59.889Z", ["Swift"],
   "/images/blog/property-wrappers.jpg",
   "/images/blog/sm/property-wrappers.jpg",
   "\nBack then, prior to Swift 5, every time we wanted to try accessing an object, we needed to create boilerplate code."⟩

/-! ### Small synthetic post files used as witnesses -/

/-- A minimal well-formed post file. -/
def sampleValidContent : String :=
  "---\ntitle: \"A\"\ndate: \"2023-01-02T00:00:00.000Z\"\ncategory: [\"X\"]\ncover: \"/c.jpg\"\nthumb: \"/t.jpg\"\n---\nbody"

/-- A second minimal well-formed post file with a later date. -/
def sampleValidContent2 : String :=
  "---\ntitle: \"B\"\ndate: \"2024-06-07T00:00:00.000Z\"\ncategory: [\"Y\", \"Z\"]\ncover: \"/c2.jpg\"\nthumb: \"/t2.jpg\"\n---\nmore body"

/-- A post file whose metadata block lacks the title key. -/
def sampleNoTitleContent : String :=
  "---\ndate: \"2023-03-04T00:00:00.000Z\"\ncategory: [\"W\"]\ncover: \"/c3.jpg\"\nthumb: \"/t3.jpg\"\n---\nbody3"

/-- The record parsed from sampleValidContent. -/
def samplePost : Post :=
  ⟨"A", "2023-01-02T00:00:00.000Z", ["X"], "/c.jpg", "/t.jpg", "body"⟩

/-- The record parsed from sampleValidContent2. -/
def samplePost2 : Post :=
  ⟨"B", "2024-06-07T00:00:00.000Z", ["Y", "Z"], "/c2.jpg", "/t2.jpg", "more body"⟩

/-! ### Loader lemmas -/

/-- A file without a title key in its metadata never parses. -/
theorem parsePost_eq_none_of_no_title (content : String)
    (h : postTitleValue content = none) : parsePost content = none := by
  rw [postTitleValue] at h
  rw [parsePost]
  cases hsf : splitFrontmatter content with
  | none => rfl
  | some p =>
    obtain ⟨metaLines, body⟩ := p
    rw [hsf] at h
    have h2 : lookupKV "title" (metaLines.filterMap splitKV) = none := h
    simp only [h2]

/-- Mapping to some on the nose makes filterMap the identity transport. -/
theorem filterMap_eq_of_map_eq_map_some {α β : Type} (f : α → Option β) :
    ∀ (l : List α) (posts : List β), l.map f = posts.map some →
      l.filterMap f = posts := by
  intro l
  induction l with
  | nil =>
    intro posts h
    cases posts with
    | nil => rfl
    | cons b bs => simp at h
  | cons a as ih =>
    intro posts h
    cases posts with
    | nil => simp at h
    | cons b bs =>
      simp only [List.map_cons, List.cons.injEq] at h
      obtain ⟨h1, h2⟩ := h
      simp [List.filterMap_cons, h1, ih bs h2]

/-- C1.  The sequence returned by the post loader is sorted by publication
date descending: for any two adjacent records, the date key of the first is
greater than or equal to the date key of the second. -/
theorem loadPosts_sorted_date_desc (files : List PostFile) :
    List.Chain' (fun a b => dateKey a.date ≥ dateKey b.date) (loadPosts files) := by
  have h := List.sorted_insertionSort postLE
    (files.filterMap (fun f => parsePost f.content))
  exact h.chain'

/-- C2.  A post file lacking the title metadata key is excluded from the
result set; the loader returns normally on the remaining files and never
aborts the batch. -/
theorem loadPosts_skips_missing_title (pre suf : List PostFile) (f : PostFile)
    (h : postTitleValue f.content = none) :
    loadPosts (pre ++ f :: suf) = loadPosts (pre ++ suf) := by
  have hp : parsePost f.content = none := parsePost_eq_none_of_no_title _ h
  simp [loadPosts, List.filterMap_append, List.filterMap_cons, hp]

/-- Witness for C2: dropping the concrete title-less sample file leaves the
loader result unchanged. -/
theorem loadPosts_skips_missing_title_witness :
    postTitleValue sampleNoTitleContent = none ∧
    loadPosts [⟨"a", sampleValidContent⟩, ⟨"b", sampleNoTitleContent⟩] =
      loadPosts [⟨"a", sampleValidContent⟩] :=
  ⟨by decide,
   loadPosts_skips_missing_title [⟨"a", sampleValidContent⟩] []
     ⟨"b", sampleNoTitleContent⟩ (by decide)⟩

/-- C3.  When every file of the directory parses, the loader returns
exactly one record per file — the record whose fields are the parsed
metadata of that file — reordered only by the date sort. -/
theorem loadPosts_one_record_per_file (files : List PostFile) (posts : List Post)
    (h : files.map (fun f => parsePost f.content) = posts.map some) :
    (loadPosts files).Perm posts := by
  have hfm : files.filterMap (fun f => parsePost f.content) = posts :=
    filterMap_eq_of_map_eq_map_some _ files posts h
  have hload : loadPosts files = List.insertionSort postLE posts := by
    rw [loadPosts, hfm]
  rw [hload]
  exact List.perm_insertionSort postLE posts

/-- Witness for C3: the two concrete sample files parse to exactly the two
sample records and the loader returns a permutation of them. -/
theorem loadPosts_one_record_per_file_witness :
    [PostFile.mk "a" sampleValidContent, PostFile.mk "b" sampleValidContent2].map
        (fun f => parsePost f.content) = [samplePost, samplePost2].map some ∧
    (loadPosts [PostFile.mk "a" sampleValidContent, PostFile.mk "b" sampleValidContent2]).Perm
      [samplePost, samplePost2] :=
  ⟨by decide,
   loadPosts_one_record_per_file
     [PostFile.mk "a" sampleValidContent, PostFile.mk "b" sampleValidContent2]
     [samplePost, samplePost2] (by decide)⟩

set_option maxRecDepth 40000 in
/-- C4.  On the two concrete post files of the repository, dated
2023-02-24T20:31:59.889Z and 2023-05-03T20:31:59.889Z, the loader places
the May 2023 post before the February 2023 post. -/
theorem loadPosts_orders_may_before_february :
    loadPosts [createCustomShellFile, propertyWrappersFile] =
      [propertyWrappersPost, createCustomShellPost] := by
  decide

/-! ## Markup model

Rendered markup is a tree of DOM nodes: text nodes and elements carrying a
tag, an attribute list and a child list. -/

/-- One DOM node of the rendered markup. -/
inductive Node where
  | text (s : String)
  | elem (tag : String) (attrs : List (String × String)) (children : List Node)

mutual
/-- Number of nodes of the tree satisfying the predicate. -/
def countP (q : Node → Bool) : Node → Nat
  | .text s => bif q (.text s) then 1 else 0
  | .elem t a cs => (bif q (.elem t a cs) then 1 else 0) + countPs q cs
/-- Number of nodes of the forest satisfying the predicate. -/
def countPs (q : Node → Bool) : List Node → Nat
  | [] => 0
  | n :: ns => countP q n + countPs q ns
end

theorem countPs_append (q : Node → Bool) (l1 l2 : List Node) :
    countPs q (l1 ++ l2) = countPs q l1 + countPs q l2 := by
  induction l1 with
  | nil => simp [countPs]
  | cons n ns ih => simp [countPs, ih]; omega

/-- The node is a list element (a ul tag). -/
def isUl : Node → Bool
  | .text _ => false
  | .elem t _ _ => decide (t = "ul")

/-- The node is the stray text "0". -/
def isTextZero : Node → Bool
  | .text s => decide (s = "0")
  | .elem _ _ _ => false

/-- The node is the leading block that holds the Pay It Forward heading,
recognised by its class attribute. -/
def isLeadingBlock : Node → Bool
  | .text _ => false
  | .elem _ attrs _ =>
    decide (lookupKV "className" attrs = some "breadcrumb text-leading absolute")

/-- The child list is exactly one text node carrying the publications
subtitle. -/
def subtitleChildren : List Node → Bool
  | [Node.text s] =>
    decide (s = "My publications and articles regarding iOS Development and Swift Programming")
  | _ => false

/-- The node is the publications subtitle paragraph. -/
def isSubtitle : Node → Bool
  | .text _ => false
  | .elem t _ cs => decide (t = "p") && subtitleChildren cs

/-- The node is an element carrying the given id attribute. -/
def hasId (i : String) : Node → Bool
  | .text _ => false
  | .elem _ attrs _ => decide (lookupKV "id" attrs = some i)

/-! ## Breadcrumb component

Transcribed from the Breadcrumb component source.  The paths prop flows
into the JSX child expression

  paths ? Array.isArray(paths) && paths.length && (ul ...) : null

which is evaluated under the JavaScript rules: a falsy paths selects null;
a non-array paths makes the conjunction stop at false; an empty array makes
it stop at the number 0 (the value of paths.length); only a non-empty array
produces the list element, and only then is paths.map called.  React
renders null, undefined and booleans as nothing and numbers as text. -/

/-- One entry of the paths prop: a display name and an optional link. -/
structure PathEntry where
  name : String
  link : Option String

/-- A JavaScript value, as far as the paths prop is concerned. -/
inductive JsVal where
  | null
  | undef
  | bool (b : Bool)
  | num (n : Int)
  | str (s : String)
  | arr (elems : List PathEntry)
  | obj

/-- JavaScript truthiness. -/
def truthy : JsVal → Bool
  | .null => false
  | .undef => false
  | .bool b => b
  | .num n => decide (n ≠ 0)
  | .str s => decide (s ≠ "")
  | .arr _ => true
  | .obj => true

/-- The Array.isArray test. -/
def isArray : JsVal → Bool
  | .arr _ => true
  | .null => false
  | .undef => false
  | .bool _ => false
  | .num _ => false
  | .str _ => false
  | .obj => false

/-- Length of an array value; consulted only under the Array.isArray
guard, so the non-array branches are never reached. -/
def arrLen : JsVal → Nat
  | .arr xs => xs.length
  | _ => 0

/-- Truthiness of the optional link of a path entry. -/
def linkTruthy : Option String → Bool
  | some s => decide (s ≠ "")
  | none => false

/-- One list item of the breadcrumb path list: a linked name when the
entry carries a truthy link, the bare name otherwise. -/
def renderLi (path : PathEntry) : Node :=
  .elem "li" [("className", "inline-block capitalize"), ("key", path.name)]
    [if linkTruthy path.link then
       .elem "Link" [("href", path.link.getD "")]
         [.elem "a" [("className", "text-heading hover:text-primary")]
           [.text path.name]]
     else .text path.name]

/-- Value of a JSX child expression: nothing (null, undefined or a
boolean), a number, or an element. -/
inductive Child where
  | skip
  | num (n : Int)
  | node (n : Node)

/-- The map call of the component; calling it on a non-array value is the
JavaScript type error the Array.isArray guard exists to prevent. -/
def jsMapLi (v : JsVal) : Except String (List Node) :=
  match v with
  | .arr xs => .ok (xs.map renderLi)
  | _ => .error "TypeError: paths.map is not a function"

/-- The paths child expression of the component, evaluated left to right
with JavaScript short-circuiting; paths.map runs only after the
Array.isArray conjunct has held. -/
def pathsExpr (paths : JsVal) : Except String Child :=
  if truthy paths = false then .ok .skip
  else if isArray paths = false then .ok .skip
  else if arrLen paths = 0 then .ok (.num 0)
  else
    (jsMapLi paths).map (fun lis =>
      .node (.elem "ul"
        [("className", "mb-0 inline-flex list-none flex-wrap justify-center gap-x-2 pl-0")]
        lis))

/-- React rendering of a child value: nothing, a text node for a number,
or the element itself. -/
def childToNodes : Child → List Node
  | .skip => []
  | .num n => [.text (toString n)]
  | .node nd => [nd]

/-- The props of the Breadcrumb component; detailPost defaults to false at
the JavaScript level. -/
structure BreadcrumbProps where
  title : String
  paths : JsVal
  blurred : Bool
  detailPost : Bool

/-- The guard of the Pay It Forward heading and of the publications
subtitle. -/
def showLeading (p : BreadcrumbProps) : Bool :=
  !p.detailPost && decide (p.title ≠ "Page not found")

/-- Class of the inner wrapper, with the opacity chosen by blurred (the
template literal of the source, inlined). -/
def innerClass (blurred : Bool) : String :=
  if blurred then "relative z-20 bg-grey-darken pt-[73px] bg-opacity-20"
  else "relative z-20 bg-grey-darken pt-[73px] bg-opacity-90"

/-- The leading block holding the Pay It Forward heading. -/
def leadingBlock : Node :=
  .elem "div" [("className", "breadcrumb text-leading absolute")]
    [.elem "p" [] [.text "Pay It Forward"]]

/-- The publications subtitle paragraph. -/
def subtitleParagraph : Node :=
  .elem "p" []
    [.text "My publications and articles regarding iOS Development and Swift Programming"]

/-- The markup of the Breadcrumb component, given the evaluated paths
child. -/
def breadcrumbTree (p : BreadcrumbProps) (pc : Child) : Node :=
  .elem "div" [("className", "breadcrumb-wrap relative")]
    ((if p.blurred then []
      else [.elem "div"
        [("className", "breadcrumb-bg absolute left-0 top-0 h-full w-full")] []]) ++
     [.elem "div" [("className", innerClass p.blurred)]
       [.elem "div" [("className", "container mx-auto")]
         ((if showLeading p then [leadingBlock] else []) ++
          [.elem "div" [("className", "breadcrumb py-16 text-center lg:py-20")]
            ([.elem "h2" [("className", "capitalize text-primary")] [.text p.title]] ++
             childToNodes pc ++
             (if showLeading p then [subtitleParagraph] else []))])]])

/-- Rendering the Breadcrumb component: evaluate the paths child
expression (the only fallible step of the render), then build the tree. -/
def renderBreadcrumb (p : BreadcrumbProps) : Except String Node :=
  (pathsExpr p.paths).map (breadcrumbTree p)

/-- Number of nodes of the rendered output satisfying the predicate; zero
when the render throws. -/
def renderCount (q : Node → Bool) (p : BreadcrumbProps) : Nat :=
  match renderBreadcrumb p with
  | .ok t => countP q t
  | .error _ => 0

/-! ### Evaluation lemmas for the paths expression -/

/-- The class attribute list of the breadcrumb list element. -/
def ulAttrs : List (String × String) :=
  [("className", "mb-0 inline-flex list-none flex-wrap justify-center gap-x-2 pl-0")]

/-- The paths child expression never throws: on every JavaScript value it
evaluates to a child. -/
theorem pathsExpr_ok (v : JsVal) : ∃ c, pathsExpr v = Except.ok c := by
  by_cases htr : truthy v = false
  · exact ⟨.skip, by rw [pathsExpr, if_pos htr]⟩
  · by_cases hia : isArray v = false
    · exact ⟨.skip, by rw [pathsExpr, if_neg htr, if_pos hia]⟩
    · cases v with
      | arr xs =>
        cases xs with
        | nil => exact ⟨.num 0, rfl⟩
        | cons e es => exact ⟨_, rfl⟩
      | null => simp [isArray] at hia
      | undef => simp [isArray] at hia
      | bool b => simp [truthy] at htr; simp [isArray] at hia
      | num n => simp [isArray] at hia
      | str s => simp [isArray] at hia
      | obj => simp [isArray] at hia

/-- On every non-array value the paths child expression stops at a falsy
conjunct and renders nothing; paths.map is never reached. -/
theorem pathsExpr_non_array (v : JsVal) (h : isArray v = false) :
    pathsExpr v = Except.ok Child.skip := by
  by_cases htr : truthy v = false
  · rw [pathsExpr, if_pos htr]
  · rw [pathsExpr, if_neg htr, if_pos h]

/-- The possible values of the paths child expression: nothing, the number
0 for an empty array, or the list element built from a non-empty array. -/
theorem pathsExpr_cases (v : JsVal) (c : Child) (h : pathsExpr v = Except.ok c) :
    c = Child.skip ∨ c = Child.num 0 ∨
      ∃ xs, v = JsVal.arr xs ∧ xs ≠ [] ∧
        c = Child.node (Node.elem "ul" ulAttrs (xs.map renderLi)) := by
  by_cases htr : truthy v = false
  · rw [pathsExpr, if_pos htr] at h
    exact Or.inl (Except.ok.inj h).symm
  · by_cases hia : isArray v = false
    · rw [pathsExpr, if_neg htr, if_pos hia] at h
      exact Or.inl (Except.ok.inj h).symm
    · cases v with
      | arr xs =>
        cases xs with
        | nil => exact Or.inr (Or.inl (Except.ok.inj h.symm))
        | cons e es =>
          refine Or.inr (Or.inr ⟨e :: es, rfl, by simp, ?_⟩)
          have h2 : pathsExpr (JsVal.arr (e :: es)) = Except.ok (Child.node
              (Node.elem "ul" ulAttrs ((e :: es).map renderLi))) := rfl
          rw [h2] at h
          exact (Except.ok.inj h).symm
      | null => simp [isArray] at hia
      | undef => simp [isArray] at hia
      | bool b => simp [isArray] at hia
      | num n => simp [isArray] at hia
      | str s => simp [isArray] at hia
      | obj => simp [isArray] at hia

/-- A successful render is the breadcrumb tree over the evaluated paths
child. -/
theorem renderBreadcrumb_ok (p : BreadcrumbProps) (t : Node)
    (h : renderBreadcrumb p = Except.ok t) :
    ∃ c, pathsExpr p.paths = Except.ok c ∧ t = breadcrumbTree p c := by
  obtain ⟨c, hc⟩ := pathsExpr_ok p.paths
  rw [renderBreadcrumb, hc] at h
  exact ⟨c, hc, (Except.ok.inj h).symm⟩

/-! ### Counting lemmas -/

theorem countPs_map_renderLi_zero (q : Node → Bool)
    (h : ∀ e, countP q (renderLi e) = 0) (xs : List PathEntry) :
    countPs q (xs.map renderLi) = 0 := by
  induction xs with
  | nil => rfl
  | cons e es ih => simp [countPs, h, ih]

theorem countP_renderLi_isLeadingBlock (e : PathEntry) :
    countP isLeadingBlock (renderLi e) = 0 := by
  cases hl : linkTruthy e.link <;> simp only [renderLi, hl] <;> rfl

theorem countP_renderLi_isSubtitle (e : PathEntry) :
    countP isSubtitle (renderLi e) = 0 := by
  cases hl : linkTruthy e.link <;> simp only [renderLi, hl] <;> rfl

/-- The rendered paths child never holds a leading block or a subtitle
paragraph: stray copies of the Pay It Forward block or of the publications
subtitle cannot come from the path list. -/
theorem countPs_childToNodes_zero (q : Node → Bool) (v : JsVal) (c : Child)
    (h : pathsExpr v = Except.ok c)
    (hq0 : q (Node.text "0") = false)
    (hqul : ∀ ls, q (Node.elem "ul" ulAttrs ls) = false)
    (hli : ∀ e, countP q (renderLi e) = 0) :
    countPs q (childToNodes c) = 0 := by
  rcases pathsExpr_cases v c h with rfl | rfl | ⟨xs, _, _, rfl⟩
  · rfl
  · have hz : toString (0 : Int) = "0" := rfl
    simp [childToNodes, countPs, countP, hz, hq0]
  · simp [childToNodes, countPs, countP, hqul,
      countPs_map_renderLi_zero q hli]

/-- Counting list elements in the breadcrumb tree reduces to counting them
in the rendered paths child: no other part of the tree is a list. -/
theorem countP_breadcrumbTree_isUl (p : BreadcrumbProps) (pc : Child) :
    countP isUl (breadcrumbTree p pc) = countPs isUl (childToNodes pc) := by
  cases hb : p.blurred <;> cases hs : showLeading p <;>
    simp [breadcrumbTree, hb, hs, innerClass, leadingBlock, subtitleParagraph,
      countP, countPs, countPs_append, isUl]

/-- The breadcrumb tree holds the leading Pay It Forward block exactly
when its guard holds. -/
theorem countP_breadcrumbTree_isLeadingBlock (p : BreadcrumbProps) (pc : Child)
    (hpc : countPs isLeadingBlock (childToNodes pc) = 0) :
    countP isLeadingBlock (breadcrumbTree p pc) =
      (bif showLeading p then 1 else 0) := by
  cases hb : p.blurred <;> cases hs : showLeading p <;>
    simp [breadcrumbTree, hb, hs, innerClass, leadingBlock, subtitleParagraph,
      countP, countPs, countPs_append, isLeadingBlock, lookupKV, hpc]

/-- The breadcrumb tree holds the publications subtitle paragraph exactly
when its guard holds. -/
theorem countP_breadcrumbTree_isSubtitle (p : BreadcrumbProps) (pc : Child)
    (hpc : countPs isSubtitle (childToNodes pc) = 0) :
    countP isSubtitle (breadcrumbTree p pc) =
      (bif showLeading p then 1 else 0) := by
  cases hb : p.blurred <;> cases hs : showLeading p <;>
    simp [breadcrumbTree, hb, hs, innerClass, leadingBlock, subtitleParagraph,
      countP, countPs, countPs_append, isSubtitle, subtitleChildren, hpc]

/-- The guard of the leading block, spelled out on the props. -/
theorem showLeading_iff (p : BreadcrumbProps) :
    showLeading p = true ↔ (p.detailPost = false ∧ p.title ≠ "Page not found") := by
  simp [showLeading]

/-! ## Comments component

Transcribed from the Comments component source: the component takes no
props, calls the script loader hook with a fixed argument record, and
returns a wrapper div holding the designated container div that carries
the container id and the ref the hook inserts into. -/

/-- The fixed container id of the Comments component. -/
def commentsContainerId : String := "comments-container"

/-- The arguments of the script loader hook. -/
structure UseScriptArgs where
  url : String
  theme : String
  issueTerm : String
  repo : String
  id : String
  deriving Repr, DecidableEq

/-- The argument record the Comments component passes to the script loader
hook on mount. -/
def commentsScriptArgs : UseScriptArgs :=
  { url := "https://utteranc.es/client.js"
    theme := "icy-dark"
    issueTerm := "url"
    repo := "alibstrd/dzulfikar-ali"
    id := commentsContainerId }

/-- The markup the Comments component returns: a wrapper div holding the
container div that carries the container id. -/
def commentsMarkup : Node :=
  Node.elem "div" [("className", "w-full")]
    [Node.elem "div" [("id", commentsContainerId)] []]

/-- The script element the hook builds from its arguments. -/
def scriptElem (a : UseScriptArgs) : Node :=
  Node.elem "script"
    [("src", a.url), ("theme", a.theme), ("issue-term", a.issueTerm), ("repo", a.repo)]
    []

mutual
/-- Modelled from the spec: the script loader hook useScript (the file
src/lib/use-script is not among the shipped sources) — on mount it inserts
one script element configured with the given parameters into the
designated container node, found by its id. -/
def insertScript (a : UseScriptArgs) : Node → Node
  | .text s => .text s
  | .elem t attrs cs =>
    if lookupKV "id" attrs = some a.id then .elem t attrs (cs ++ [scriptElem a])
    else .elem t attrs (insertScripts a cs)
/-- Modelled from the spec: insertScript over a forest. -/
def insertScripts (a : UseScriptArgs) : List Node → List Node
  | [] => []
  | n :: ns => insertScript a n :: insertScripts a ns
end

/-- The Comments markup after mount: the hook has run against the
designated container. -/
def commentsAfterMount : Node := insertScript commentsScriptArgs commentsMarkup

/-! ## Claims about the components -/

/-- C5, counterexample.  With the empty path list the Breadcrumb render is
not free of extra output: in place of the omitted list it holds exactly one
stray text node "0" (the value of paths.length, which React renders as
text), although it does omit the list element itself. -/
theorem breadcrumb_empty_paths_stray_zero :
    renderCount isTextZero ⟨"blog", JsVal.arr [], false, false⟩ = 1 ∧
    renderCount isUl ⟨"blog", JsVal.arr [], false, false⟩ = 0 := ⟨rfl, rfl⟩

/-- C5, amended.  For every title, the Breadcrumb component given the
empty path list renders without throwing and emits no list element; but in
place of the list the paths expression evaluates to the number 0, which
renders as the text "0". -/
theorem breadcrumb_empty_paths (title : String) (bl dp : Bool) :
    (renderBreadcrumb ⟨title, JsVal.arr [], bl, dp⟩).isOk = true ∧
    renderCount isUl ⟨title, JsVal.arr [], bl, dp⟩ = 0 ∧
    pathsExpr (JsVal.arr []) = Except.ok (Child.num 0) := by
  have hr : renderBreadcrumb ⟨title, JsVal.arr [], bl, dp⟩ =
      Except.ok (breadcrumbTree ⟨title, JsVal.arr [], bl, dp⟩ (Child.num 0)) := rfl
  refine ⟨by rw [hr]; rfl, ?_, rfl⟩
  simp only [renderCount, hr]
  rw [countP_breadcrumbTree_isUl]
  rfl

/-- C6.  On mount the Comments component invokes the script loader with
exactly the fixed parameters: client script URL, icy-dark theme, url
issue-matching strategy, the repository identifier and the designated
container id.  The component takes no props, so the record is a constant
of the program. -/
theorem comments_script_args_fixed :
    commentsScriptArgs =
      ⟨"https://utteranc.es/client.js", "icy-dark", "url",
       "alibstrd/dzulfikar-ali", "comments-container"⟩ := rfl

/-- C7.  After mount the Comments markup holds exactly one element
carrying the container id, and the script element has been inserted into
that one node. -/
theorem comments_one_container_with_script :
    countP (hasId commentsContainerId) commentsAfterMount = 1 ∧
    commentsAfterMount =
      Node.elem "div" [("className", "w-full")]
        [Node.elem "div" [("id", commentsContainerId)]
          [scriptElem commentsScriptArgs]] := ⟨rfl, rfl⟩

/-- C8.  The Breadcrumb component is deterministic: its embedding is a
pure function of the props record (the source reads nothing but its props:
no state hooks, no globals), so two renders with equal props produce
identical markup. -/
theorem breadcrumb_deterministic (p q : BreadcrumbProps) (h : p = q) :
    renderBreadcrumb p = renderBreadcrumb q := by rw [h]

/-- Witness for C8 at concrete props. -/
theorem breadcrumb_deterministic_witness :
    renderBreadcrumb ⟨"blog", JsVal.arr [⟨"home", some "/"⟩], false, false⟩ =
      renderBreadcrumb ⟨"blog", JsVal.arr [⟨"home", some "/"⟩], false, false⟩ :=
  breadcrumb_deterministic _ _ rfl

/-- C9.  A successful Breadcrumb render holds the Pay It Forward leading
block and the publications subtitle paragraph exactly when detailPost is
false and the title differs from "Page not found"; otherwise both are
omitted. -/
theorem breadcrumb_leading_heading_iff (p : BreadcrumbProps) (t : Node)
    (h : renderBreadcrumb p = Except.ok t) :
    countP isLeadingBlock t =
      (if p.detailPost = false ∧ p.title ≠ "Page not found" then 1 else 0) ∧
    countP isSubtitle t =
      (if p.detailPost = false ∧ p.title ≠ "Page not found" then 1 else 0) := by
  obtain ⟨c, hc, rfl⟩ := renderBreadcrumb_ok p t h
  have hlead : countPs isLeadingBlock (childToNodes c) = 0 :=
    countPs_childToNodes_zero isLeadingBlock p.paths c hc rfl (fun ls => rfl)
      countP_renderLi_isLeadingBlock
  have hsub : countPs isSubtitle (childToNodes c) = 0 :=
    countPs_childToNodes_zero isSubtitle p.paths c hc rfl (fun ls => rfl)
      countP_renderLi_isSubtitle
  rw [countP_breadcrumbTree_isLeadingBlock p c hlead,
    countP_breadcrumbTree_isSubtitle p c hsub]
  cases hs : showLeading p with
  | false =>
    have hcond : ¬(p.detailPost = false ∧ p.title ≠ "Page not found") := by
      rw [← showLeading_iff, hs]; simp
    simp [hcond]
  | true =>
    have hcond : p.detailPost = false ∧ p.title ≠ "Page not found" :=
      (showLeading_iff p).mp hs
    simp [hcond]

/-- Witness for C9: the concrete blog props render both elements. -/
theorem breadcrumb_leading_heading_iff_witness :
    countP isLeadingBlock
        (breadcrumbTree ⟨"blog", JsVal.null, false, false⟩ Child.skip) = 1 ∧
    countP isSubtitle
        (breadcrumbTree ⟨"blog", JsVal.null, false, false⟩ Child.skip) = 1 := by
  have h := breadcrumb_leading_heading_iff ⟨"blog", JsVal.null, false, false⟩
    (breadcrumbTree ⟨"blog", JsVal.null, false, false⟩ Child.skip) rfl
  simpa using h

/-- C10.  For every non-array paths value the Breadcrumb component renders
without throwing — the Array.isArray guard short-circuits before
paths.length and paths.map are touched — and the output holds no list
element. -/
theorem breadcrumb_non_array_paths (v : JsVal) (h : isArray v = false)
    (title : String) (bl dp : Bool) :
    (renderBreadcrumb ⟨title, v, bl, dp⟩).isOk = true ∧
    renderCount isUl ⟨title, v, bl, dp⟩ = 0 := by
  have hpe := pathsExpr_non_array v h
  have hr : renderBreadcrumb ⟨title, v, bl, dp⟩ =
      Except.ok (breadcrumbTree ⟨title, v, bl, dp⟩ Child.skip) := by
    show (pathsExpr v).map _ = _
    rw [hpe]
    rfl
  refine ⟨by rw [hr]; rfl, ?_⟩
  simp only [renderCount, hr]
  rw [countP_breadcrumbTree_isUl]
  rfl

/-- Witness for C10 at a string-valued paths prop. -/
theorem breadcrumb_non_array_paths_witness :
    isArray (JsVal.str "oops") = false ∧
    ((renderBreadcrumb ⟨"blog", JsVal.str "oops", false, false⟩).isOk = true ∧
     renderCount isUl ⟨"blog", JsVal.str "oops", false, false⟩ = 0) :=
  ⟨rfl, breadcrumb_non_array_paths (JsVal.str "oops") rfl "blog" false false⟩
